import Mathlib

/-!
Shallow embedding of the Canvas quiz bot server (src/server.js) together
with theorems settling the specification claims about it.

The JavaScript program is a single-file Express server driving a Puppeteer
browser.  Its browser-facing effects are modelled as pure data: the page
supplies inputs through environment structures, and the bot's actions are
recorded as values.  Machine-level JS semantics that the claims depend on
(truthiness, the logical-or default idiom, strict inequality with `false`,
substring `includes`) are modelled explicitly.
-/

/-- A JavaScript value, restricted to the shapes the request body fields
take in this program: undefined, a boolean, a number, or a string. -/
inductive JsVal where
  | undef : JsVal
  | jbool : Bool → JsVal
  | jnum : Int → JsVal
  | jstr : String → JsVal
deriving DecidableEq

/-- JS truthiness: undefined, false, 0 and the empty string are falsy. -/
def truthy : JsVal → Bool
  | .undef => false
  | .jbool b => b
  | .jnum n => n != 0
  | .jstr s => s != ""

/-- The JS idiom `a || b`: the left value when truthy, else the default. -/
def jsOrVal (a b : JsVal) : JsVal :=
  if truthy a then a else b

/-- The JS idiom `a?.x || b` on optional strings (empty string is falsy). -/
def jsOrStr : Option String → String → String
  | some s, d => if s = "" then d else s
  | none, d => d

/-- JS `String.prototype.includes`: substring containment test. -/
def jsIncludes (s sub : String) : Bool :=
  s.toList.tails.any (fun t => sub.toList.isPrefixOf t)

/-- JS `String.prototype.trim`: strip whitespace from both ends. -/
def jsTrim (s : String) : String :=
  (((s.toList.dropWhile Char.isWhitespace).reverse.dropWhile Char.isWhitespace).reverse).asString

/-- A DOM element as the login selector loops observe it: its computed
style (display, visibility, opacity strings) plus an identifying tag so
distinct elements are distinguishable values. -/
structure Elem where
  display : String
  visibility : String
  opacity : String
  tag : String
deriving DecidableEq

/-- Visibility check from src/server.js lines 248-250 (and 329-331):
`style.display !== 'none' && style.visibility !== 'hidden' &&
style.opacity !== '0'`. -/
def Elem.isVisible (e : Elem) : Bool :=
  e.display != "none" && e.visibility != "hidden" && e.opacity != "0"

/-- The selector-probing loop of `login` (src/server.js lines 231-272 for
the email field and 320-346 for the password field): each candidate
selector either times out (`none`) or resolves to an element; a resolved
element is accepted only if visible, otherwise the loop moves to the next
selector. -/
def findFirstVisible : List (Option Elem) → Option Elem
  | [] => none
  | none :: rest => findFirstVisible rest
  | some e :: rest => if e.isVisible then some e else findFirstVisible rest

/-- Question kinds as classified in `extractQuestions`
(src/server.js lines 630-634). -/
inductive QType where
  | multiple_choice
  | true_false
  | multiple_answers
  | short_answer
  | essay
  | unknown
deriving DecidableEq

/-- Classification from the container's `className`
(src/server.js lines 630-634): chained substring checks. -/
def classifyType (className : String) : QType :=
  if jsIncludes className "multiple_choice" then .multiple_choice
  else if jsIncludes className "true_false" then .true_false
  else if jsIncludes className "multiple_answers" then .multiple_answers
  else if jsIncludes className "short_answer" then .short_answer
  else if jsIncludes className "essay" then .essay
  else .unknown

/-- An option collected from a `.answer` sub-element
(src/server.js lines 636-647). -/
structure QOption where
  text : String
  id : String
  value : String
deriving DecidableEq, Inhabited

/-- A `.answer` sub-element of a question container: an optional label
(its innerText) and an optional input (its id and value). -/
structure AnswerEl where
  label : Option String
  input : Option (String × String)
deriving DecidableEq

/-- A `.question` container as `extractQuestions` reads it from the DOM:
its element id, its className, the innerText of the `.question_text` and
`.text` sub-elements when present, and its `.answer` sub-elements. -/
structure QContainer where
  elemId : String
  className : String
  textA : Option String
  textB : Option String
  answers : List AnswerEl
deriving DecidableEq

/-- An extracted question (src/server.js lines 649-655). -/
structure Question where
  id : String
  text : String
  qtype : QType
  options : List QOption
  element : String
deriving DecidableEq

/-- Extraction of one container (src/server.js lines 626-656): question
text is `.question_text` innerText, else `.text` innerText, else the
empty string, then trimmed; the id falls back to `question_<index>` when
the element id is empty; options keep only answers having both a label
and an input.  Every container yields a question: there is no filtering
on empty text. -/
def extractQuestion (index : Nat) (c : QContainer) : Question :=
  { id := if c.elemId = "" then "question_" ++ toString index else c.elemId
    text := jsTrim (jsOrStr c.textA (jsOrStr c.textB ""))
    qtype := classifyType c.className
    options := c.answers.filterMap (fun a =>
      match a.label, a.input with
      | some l, some iv => some { text := jsTrim l, id := iv.1, value := iv.2 }
      | _, _ => none)
    element := c.elemId }

/-- `extractQuestions` (src/server.js lines 616-674): map every
`.question` container, in DOM order, to a Question. -/
def extractQuestions (cs : List QContainer) : List Question :=
  cs.mapIdx (fun i c => extractQuestion i c)

/-- First capital letter of the reasoning output:
JS `aiAnswer.match(/[A-Z]/)` (src/server.js line 741). -/
def firstCapital (s : String) : Option Char :=
  s.toList.find? (fun c => 'A' ≤ c && c ≤ 'Z')

/-- All capital letters of the reasoning output:
JS `aiAnswer.match(/[A-Z]/g) || []` (src/server.js line 768). -/
def capitals (s : String) : List Char :=
  s.toList.filter (fun c => 'A' ≤ c && c ≤ 'Z')

/-- The token passed to the page click: `option.id || option.value`
(src/server.js line 759). -/
def optionToken (o : QOption) : String :=
  if o.id = "" then o.value else o.id

/-- A browser-side action performed by `answerQuestion`, recorded as
data: scrolling to the question container, a fixed wait (milliseconds),
clicking an option control, or setting the last text field's value. -/
inductive PageAction where
  | scrollTo : String → PageAction
  | wait : Nat → PageAction
  | clickOption : String → PageAction
  | setLastTextInput : String → PageAction
deriving DecidableEq

/-- An entry of `this.answers` (src/server.js lines 803-808); the
timestamp is an abstract tick. -/
structure AnsweredQuestion where
  questionId : String
  question : String
  answer : String
  timestamp : Nat
deriving DecidableEq

/-- The per-question step `answerQuestion` (src/server.js lines 724-814)
as a pure function: it scrolls to the container and waits a fixed 1000 ms,
then dispatches on the question type.  Single-choice and boolean: the
first capital letter maps to a zero-based index; no letter, or an index
outside the options, throws (the catch at lines 810-813 logs and
rethrows, so the error propagates).  Multi-select: every capital letter
with a valid index produces a click, invalid ones are skipped, nothing
throws.  Short answer and essay: the last text field is set.  Unknown
types fall through every branch.  On a non-throwing run the answer entry
is pushed. -/
def answerQuestion (tick : Nat) (q : Question) (aiAnswer : String) :
    Except String (List PageAction × AnsweredQuestion) :=
  let pre : List PageAction := [.scrollTo q.element, .wait 1000]
  let entry : AnsweredQuestion :=
    { questionId := q.id, question := q.text, answer := aiAnswer, timestamp := tick }
  match q.qtype with
  | .multiple_choice | .true_false =>
    match firstCapital aiAnswer with
    | none => .error ("Could not extract answer letter from: " ++ aiAnswer)
    | some letter =>
      let answerIndex := letter.toNat - 65
      if h : answerIndex < q.options.length then
        .ok (pre ++ [.clickOption (optionToken (q.options.get ⟨answerIndex, h⟩))], entry)
      else
        .error ("Invalid answer index: " ++ toString answerIndex)
  | .multiple_answers =>
    let clicks : List PageAction := (capitals aiAnswer).filterMap (fun letter =>
      let answerIndex := letter.toNat - 65
      if h : answerIndex < q.options.length then
        some (.clickOption (optionToken (q.options.get ⟨answerIndex, h⟩)))
      else none)
    .ok (pre ++ clicks, entry)
  | .short_answer | .essay => .ok (pre ++ [.setLastTextInput aiAnswer], entry)
  | .unknown => .ok (pre, entry)

/-- The request body of POST /api/start-quiz, field by field as the
handler reads it (src/server.js lines 969-979). -/
structure StartBody where
  groqApiKey : JsVal
  canvasUrl : JsVal
  loginUrl : JsVal
  username : JsVal
  password : JsVal
  delayMin : JsVal
  delayMax : JsVal
  headless : JsVal
  autoSubmit : JsVal
deriving DecidableEq

/-- The session configuration built by the handler
(src/server.js lines 969-979). -/
structure Config where
  groqApiKey : JsVal
  canvasUrl : JsVal
  loginUrl : JsVal
  username : JsVal
  password : JsVal
  delayMin : JsVal
  delayMax : JsVal
  headless : Bool
  autoSubmit : Bool
deriving DecidableEq

/-- Config construction (src/server.js lines 969-979): delay bounds use
the `|| default` idiom (2 and 5); `headless` and `autoSubmit` are
`req.body.x !== false`, so anything but the exact boolean false yields
true.  No relation between delayMin and delayMax is checked anywhere. -/
def mkConfig (b : StartBody) : Config :=
  { groqApiKey := b.groqApiKey
    canvasUrl := b.canvasUrl
    loginUrl := b.loginUrl
    username := b.username
    password := b.password
    delayMin := jsOrVal b.delayMin (.jnum 2)
    delayMax := jsOrVal b.delayMax (.jnum 5)
    headless := b.headless ≠ .jbool false
    autoSubmit := b.autoSubmit ≠ .jbool false }

/-- Session identifier: `Date.now().toString()`
(src/server.js line 60). -/
def mkSessionId (now : Nat) : String :=
  toString now

/-- The session registry, modelling the JS `Map` `activeSessions`
(src/server.js line 40) as an association list from session identifier
to a bot reference. -/
abbrev Registry := List (String × Nat)

/-- JS `Map.prototype.set`: replace in place when the key exists, else
append. -/
def regInsert (reg : Registry) (k : String) (v : Nat) : Registry :=
  if (List.any reg (fun p => p.1 = k)) then
    List.map (fun p => if p.1 = k then (k, v) else p) reg
  else
    List.append reg [(k, v)]

/-- JS `Map.prototype.delete`. -/
def regErase (reg : Registry) (k : String) : Registry :=
  List.filter (fun p => p.1 ≠ k) reg

/-- JS `Map.prototype.get` as an Option. -/
def regLookup (reg : Registry) (k : String) : Option Nat :=
  (List.find? (fun p => p.1 = k) reg).map (fun p => p.2)

/-- JS `Map.prototype.size`. -/
def regSize (reg : Registry) : Nat :=
  List.length reg

/-- Outcome of the request-validation part of POST /api/start-quiz
(src/server.js lines 981-990): either a 400 response or a started bot
with its config and session identifier. -/
inductive StartResult where
  | badRequest : String → StartResult
  | started : Config → String → StartResult
deriving DecidableEq

/-- True when the start result is `started`. -/
def StartResult.isStarted : StartResult → Bool
  | .badRequest _ => false
  | .started _ _ => true

/-- Validation and bot creation in POST /api/start-quiz
(src/server.js lines 969-990): build the config, reject a falsy
`groqApiKey` or `canvasUrl` with a 400, otherwise create the bot (its
session identifier is the creation timestamp rendered as a string).
Nothing else about the body is validated. -/
def startQuiz (b : StartBody) (now : Nat) : StartResult :=
  let config := mkConfig b
  if !truthy config.groqApiKey then .badRequest "Groq API key is required"
  else if !truthy config.canvasUrl then .badRequest "Canvas URL is required"
  else .started config (mkSessionId now)

/-- The page-side inputs the `login` stage consumes
(src/server.js lines 106-552): the URL observed after the initial
navigation, the resolution of each selector in the email, password and
submit candidate lists, and the URLs observed after submitting. -/
structure LoginEnv where
  urlAfterNav : String
  emailCandidates : List (Option Elem)
  passwordCandidates : List (Option Elem)
  submitCandidates : List (Option Elem)
  urlAfterSubmit : String
  urlVeryFinal : String
deriving DecidableEq

/-- The `login` stage (src/server.js lines 106-552) as a function from
its page observations to a result, paired with the number of
selector-loop (element-location) invocations performed.  Control
structure from the source: after navigation, short-circuit success when
the URL contains both `/courses/` and `/quizzes/` (lines 151-154) or a
dashboard marker (lines 157-167) — no selector loop runs in either case.
Otherwise the email selector loop runs (fatal when no visible match,
lines 274-285), then the password loop (fatal when no visible match,
lines 348-350), then the submit loop with an Enter-key fallback (never
fatal, lines 376-415); after the bounded navigation wait, a URL that
still contains `password` or `login` triggers the one-shot second
password pass (lines 439-507, never fatal by itself); finally a URL
still containing `login` without `login_success` is a login failure
(lines 514-519). -/
def login (env : LoginEnv) : Except String Unit × Nat :=
  if jsIncludes env.urlAfterNav "/courses/" && jsIncludes env.urlAfterNav "/quizzes/" then
    (.ok (), 0)
  else if jsIncludes env.urlAfterNav "/dashboard" || jsIncludes env.urlAfterNav "?login_success=1" then
    (.ok (), 0)
  else
    match findFirstVisible env.emailCandidates with
    | none => (.error "Could not find email/username field. Check screenshots in outputs/screenshots/ for debugging.", 1)
    | some _ =>
      match findFirstVisible env.passwordCandidates with
      | none => (.error "Could not find password field", 2)
      | some _ =>
        let locatorRuns : Nat :=
          if jsIncludes env.urlAfterSubmit "password" || jsIncludes env.urlAfterSubmit "login"
          then 4 else 3
        if jsIncludes env.urlVeryFinal "login" && !(jsIncludes env.urlVeryFinal "login_success") then
          (.error "Login failed - still on login page", locatorRuns)
        else
          (.ok (), locatorRuns)

/-- The answering loop of `run` (src/server.js lines 881-893): for each
question in extraction order, call the reasoning service
(`analyzeQuestionWithAI`, which rethrows its errors, lines 718-721) and
then `answerQuestion`.  Both awaits are unguarded inside `run`'s `try`,
so the first error aborts the loop; answers pushed before the error
remain accumulated. -/
def answerLoop (ai : Nat → Except String String) :
    Nat → List Question → List AnsweredQuestion × Option String
  | _, [] => ([], none)
  | i, q :: rest =>
    match ai i with
    | .error e => ([], some e)
    | .ok ans =>
      match answerQuestion i q ans with
      | .error e => ([], some e)
      | .ok (_, entry) =>
        let tail := answerLoop ai (i + 1) rest
        (entry :: tail.1, tail.2)

/-- The environment a whole session run consumes: whether the browser
launches, the login-page observations, the navigate-to-quiz outcome, the
question containers found by the extraction evaluate (none models the
evaluate itself throwing), and the reasoning-service reply for each
question index. -/
structure Env where
  browserLaunches : Bool
  loginEnv : LoginEnv
  navResult : Except String Unit
  containers : Option (List QContainer)
  ai : Nat → Except String String

/-- The observable outcome of one session run. -/
structure RunOut where
  result : Except String (List AnsweredQuestion)
  answers : List AnsweredQuestion
  submitAttempted : Bool
  browserClosed : Bool

/-- The `run` method (src/server.js lines 868-961): initialize, then
login only when both username and password are truthy (line 872), then
navigate, extract, answer each question in order, then submit only when
`autoSubmit` (line 895; `submitQuiz` catches its own errors and can only
warn, lines 816-866).  Any stage error propagates to the outer catch and
rethrows; the `finally` closes the browser whenever one was launched
(lines 955-960) — when the launch itself failed there is no browser to
close.  `answers` is the bot's accumulated list, kept also on failure. -/
def runSession (env : Env) (cfg : Config) : RunOut :=
  if !env.browserLaunches then
    { result := .error "browser launch failed", answers := [],
      submitAttempted := false, browserClosed := false }
  else
    match (if truthy cfg.username && truthy cfg.password
           then (login env.loginEnv).1 else .ok ()) with
    | .error e =>
      { result := .error e, answers := [], submitAttempted := false, browserClosed := true }
    | .ok _ =>
      match env.navResult with
      | .error e =>
        { result := .error e, answers := [], submitAttempted := false, browserClosed := true }
      | .ok _ =>
        match env.containers with
        | none =>
          { result := .error "Error extracting questions", answers := [],
            submitAttempted := false, browserClosed := true }
        | some cs =>
          match answerLoop env.ai 0 (extractQuestions cs) with
          | (partialAnswers, some e) =>
            { result := .error e, answers := partialAnswers,
              submitAttempted := false, browserClosed := true }
          | (recs, none) =>
            { result := .ok recs, answers := recs,
              submitAttempted := cfg.autoSubmit, browserClosed := true }

/-- The full handler path for one accepted request
(src/server.js lines 989-1007): create the bot, insert it into
`activeSessions`, run it in the background, and in both the `then` and
the `catch` handler delete the registry entry.  Returns the final
registry and, when the request passed validation, the run outcome. -/
def handleStartQuiz (reg : Registry) (env : Env) (b : StartBody) (now : Nat) :
    Registry × Option RunOut :=
  match startQuiz b now with
  | .badRequest _ => (reg, none)
  | .started cfg sid =>
    let reg1 := regInsert reg sid now
    let out := runSession env cfg
    let reg2 := regErase reg1 sid
    (reg2, some out)

/-- Spec-side description of the multi-select selection: the zero-based
indices of all capital letters in the output that fall inside the option
list. -/
def validLetterIndices (s : String) (n : Nat) : List Nat :=
  ((capitals s).map (fun c => c.toNat - 65)).filter (fun i => i < n)

/-- A sample start-quiz request body: valid key and URL, both flags and
credentials omitted, and delay bounds with delayMin greater than
delayMax. -/
def bodySample : StartBody :=
  { groqApiKey := .jstr "gsk_test",
    canvasUrl := .jstr "https://canvas.example.edu/courses/1/quizzes/2",
    loginUrl := .undef, username := .undef, password := .undef,
    delayMin := .jnum 10, delayMax := .jnum 1,
    headless := .undef, autoSubmit := .undef }

/-- The configuration the handler builds from `bodySample`. -/
def cfgSample : Config := mkConfig bodySample

/-- A sample login-page environment (unused selector lists). -/
def loginEnvSample : LoginEnv :=
  { urlAfterNav := "https://canvas.example.edu/login/canvas",
    emailCandidates := [], passwordCandidates := [],
    submitCandidates := [], urlAfterSubmit := "", urlVeryFinal := "" }

/-- A sample single-choice question container with one option. -/
def containerSampleMC : QContainer :=
  { elemId := "mc1", className := "question multiple_choice_question",
    textA := some "Is the sky blue?", textB := none,
    answers := [{ label := some "Yes", input := some ("a1", "v1") }] }

/-- A second sample single-choice question container. -/
def containerSampleMC2 : QContainer :=
  { elemId := "mc2", className := "question multiple_choice_question",
    textA := some "Is grass green?", textB := none,
    answers := [{ label := some "Yes", input := some ("a2", "v2") }] }

/-- The sample single-choice question as extraction produces it. -/
def questionSampleMC : Question :=
  { id := "mc1", text := "Is the sky blue?", qtype := .multiple_choice,
    options := [{ text := "Yes", id := "a1", value := "v1" }], element := "mc1" }

/-- A sample multi-select question with four options, as in the spec's
multi-select scenario. -/
def questionSampleMS : Question :=
  { id := "ms1", text := "Select all that apply", qtype := .multiple_answers,
    options := [{ text := "Red", id := "optA", value := "1" },
                { text := "Green", id := "optB", value := "2" },
                { text := "Blue", id := "optC", value := "3" },
                { text := "Yellow", id := "optD", value := "4" }],
    element := "ms1" }

/-- A session environment whose single question is answered "A" by the
reasoning service. -/
def envSampleGood : Env :=
  { browserLaunches := true, loginEnv := loginEnvSample, navResult := .ok (),
    containers := some [containerSampleMC], ai := fun _ => .ok "A" }

/-- A session environment whose single-choice question receives a
reasoning reply with no capital letter. -/
def envSampleNoLetter : Env :=
  { browserLaunches := true, loginEnv := loginEnvSample, navResult := .ok (),
    containers := some [containerSampleMC], ai := fun _ => .ok "i am not sure" }

/-- A session environment with two single-choice questions where only
the first receives an unparseable reasoning reply. -/
def envSampleTwo : Env :=
  { browserLaunches := true, loginEnv := loginEnvSample, navResult := .ok (),
    containers := some [containerSampleMC, containerSampleMC2],
    ai := fun i => .ok (if i = 0 then "i am not sure" else "A") }

lemma filterMap_clicks_eq (opts : List QOption) (ls : List Char) :
    (ls.filterMap (fun letter =>
        let answerIndex := letter.toNat - 65
        if h : answerIndex < opts.length then
          some (PageAction.clickOption (optionToken (opts.get ⟨answerIndex, h⟩)))
        else none))
      = ((ls.map (fun c => c.toNat - 65)).filter (fun i => i < opts.length)).map
          (fun i => PageAction.clickOption (optionToken (opts.getD i default))) := by
  induction ls with
  | nil => rfl
  | cons c cs ih =>
    rw [List.filterMap_cons, List.map_cons, List.filter_cons]
    by_cases h : c.toNat - 65 < opts.length
    · simp [h, List.getD_eq_getElem opts default h, List.get_eq_getElem]
      simpa using ih
    · simp [h]
      simpa using ih

/-- C5: for every ordered candidate list given to the element-location
routine, the element returned is exactly the first visible match: a
timed-out rule is a non-match, and a rule matching only an invisible
element is likewise passed over and the search continues, so the result
is the first element of the matched sequence that is visible — in
particular, with candidates r1 (invisible match) and r2 (visible match)
the result is r2's element, never r1's. -/
theorem c5_locator_first_visible (candidates : List (Option Elem)) :
    findFirstVisible candidates
      = (candidates.filterMap id).find? (fun e => e.isVisible) := by
  induction candidates with
  | nil => rfl
  | cons c rest ih =>
    cases c with
    | none => simpa [findFirstVisible] using ih
    | some e =>
      by_cases h : e.isVisible <;> simp [findFirstVisible, h, ih]

/-- Witness for C5 at concrete elements: a display-none match is skipped
in favour of the later visible match, which is returned. -/
theorem c5_locator_first_visible_witness :
    findFirstVisible [some ⟨"none", "visible", "1", "hiddenField"⟩,
        some ⟨"block", "visible", "1", "realField"⟩]
        = some ⟨"block", "visible", "1", "realField"⟩ ∧
      findFirstVisible [some ⟨"none", "visible", "1", "hiddenField"⟩,
        some ⟨"block", "visible", "1", "realField"⟩]
        ≠ some ⟨"none", "visible", "1", "hiddenField"⟩ := by
  have h := c5_locator_first_visible [some ⟨"none", "visible", "1", "hiddenField"⟩,
    some ⟨"block", "visible", "1", "realField"⟩]
  rw [h]
  exact ⟨by decide, by decide⟩

/-- C6 counterexample: a container whose question text is empty is NOT
discarded — extraction keeps it, with empty text, so the claim that
every extracted Question has non-empty text is false. -/
theorem c6_counterexample :
    (extractQuestions
        [{ elemId := "q1", className := "question multiple_choice_question",
           textA := none, textB := none, answers := [] }]).map Question.text
      = [""] := by
  decide

/-- C6 amended: extraction never discards a container — it yields exactly
one Question per question container, empty text included. -/
theorem c6_amended_no_discard (cs : List QContainer) :
    (extractQuestions cs).length = cs.length := by
  simp [extractQuestions]

/-- C9: when the post-navigation URL already contains both a
course-path and a quiz-path segment, the login stage reports success
immediately and performs zero element-location (selector-loop)
invocations. -/
theorem c9_login_short_circuit (env : LoginEnv)
    (h1 : jsIncludes env.urlAfterNav "/courses/" = true)
    (h2 : jsIncludes env.urlAfterNav "/quizzes/" = true) :
    login env = (.ok (), 0) := by
  unfold login
  rw [h1, h2]
  simp

/-- Witness for C9: a direct quiz URL short-circuits authentication with
no locator use. -/
theorem c9_login_short_circuit_witness :
    login { urlAfterNav := "https://school.edu/courses/12/quizzes/34",
            emailCandidates := [], passwordCandidates := [],
            submitCandidates := [], urlAfterSubmit := "", urlVeryFinal := "" }
      = (.ok (), 0) :=
  c9_login_short_circuit
    { urlAfterNav := "https://school.edu/courses/12/quizzes/34",
      emailCandidates := [], passwordCandidates := [],
      submitCandidates := [], urlAfterSubmit := "", urlVeryFinal := "" }
    (by decide) (by decide)

lemma answerQuestion_ok_cases (t : Nat) (q : Question) (ans : String)
    (acts : List PageAction) (e : AnsweredQuestion)
    (h : answerQuestion t q ans = .ok (acts, e)) :
    e = { questionId := q.id, question := q.text, answer := ans, timestamp := t } ∧
      ∃ rest, acts = [PageAction.scrollTo q.element, PageAction.wait 1000] ++ rest := by
  unfold answerQuestion at h
  split at h <;> simp only [] at h
  case h_1 =>
    split at h
    · exact absurd h (by simp)
    · split at h
      · simp only [Except.ok.injEq, Prod.mk.injEq] at h
        exact ⟨h.2.symm, ⟨_, h.1.symm⟩⟩
      · exact absurd h (by simp)
  case h_2 =>
    split at h
    · exact absurd h (by simp)
    · split at h
      · simp only [Except.ok.injEq, Prod.mk.injEq] at h
        exact ⟨h.2.symm, ⟨_, h.1.symm⟩⟩
      · exact absurd h (by simp)
  case h_3 =>
    simp only [Except.ok.injEq, Prod.mk.injEq] at h
    exact ⟨h.2.symm, ⟨_, h.1.symm⟩⟩
  case h_4 =>
    simp only [Except.ok.injEq, Prod.mk.injEq] at h
    exact ⟨h.2.symm, ⟨_, h.1.symm⟩⟩
  case h_5 =>
    simp only [Except.ok.injEq, Prod.mk.injEq] at h
    exact ⟨h.2.symm, ⟨_, h.1.symm⟩⟩
  case h_6 =>
    simp only [Except.ok.injEq, Prod.mk.injEq] at h
    refine ⟨h.2.symm, ⟨[], ?_⟩⟩
    rw [← h.1]
    simp

lemma answerQuestion_err (t : Nat) (q : Question) (ans : String)
    (hty : q.qtype = .multiple_choice ∨ q.qtype = .true_false)
    (hbad : firstCapital ans = none ∨
      ∃ c, firstCapital ans = some c ∧ q.options.length ≤ c.toNat - 65) :
    ∃ e, answerQuestion t q ans = .error e := by
  unfold answerQuestion
  rcases hty with h | h <;> rw [h] <;> simp only [] <;>
    rcases hbad with hc | ⟨c, hc, hlen⟩ <;> rw [hc] <;> simp only []
  · exact ⟨_, rfl⟩
  · rw [dif_neg (by omega)]
    exact ⟨_, rfl⟩
  · exact ⟨_, rfl⟩
  · rw [dif_neg (by omega)]
    exact ⟨_, rfl⟩

lemma answerLoop_none_ids (ai : Nat → Except String String) :
    ∀ (i : Nat) (qs : List Question) (recs : List AnsweredQuestion),
      answerLoop ai i qs = (recs, none) →
      recs.map (fun a => a.questionId) = qs.map Question.id := by
  intro i qs
  induction qs generalizing i with
  | nil =>
    intro recs h
    unfold answerLoop at h
    simp only [Prod.mk.injEq] at h
    rw [← h.1]
    rfl
  | cons q rest ih =>
    intro recs h
    unfold answerLoop at h
    split at h
    · simp only [Prod.mk.injEq] at h
      exact absurd h.2 (by simp)
    · split at h
      · simp only [Prod.mk.injEq] at h
        exact absurd h.2 (by simp)
      · simp only [] at h
        simp only [Prod.mk.injEq] at h
        rename_i ans hans acts entry hq
        have hid := (answerQuestion_ok_cases _ _ _ _ _ hq).1
        rw [← h.1, List.map_cons, List.map_cons, hid,
          ih (i + 1) (answerLoop ai (i + 1) rest).1 (by rw [← h.2])]

lemma runSession_closed (env : Env) (cfg : Config)
    (hb : env.browserLaunches = true) :
    (runSession env cfg).browserClosed = true := by
  unfold runSession
  rw [hb]
  simp only [Bool.not_true, Bool.false_eq_true, if_false]
  split
  · rfl
  · split
    · rfl
    · split
      · rfl
      · split
        · rfl
        · rfl


lemma runSession_ok_inv (env : Env) (cfg : Config) (recs : List AnsweredQuestion)
    (h : (runSession env cfg).result = .ok recs) :
    ∃ cs, env.containers = some cs ∧
      answerLoop env.ai 0 (extractQuestions cs) = (recs, none) ∧
      (runSession env cfg).submitAttempted = cfg.autoSubmit := by
  unfold runSession at h ⊢
  split at h
  · exact absurd h (by simp)
  · split at h
    · exact absurd h (by simp)
    · split at h
      · exact absurd h (by simp)
      · split at h
        · exact absurd h (by simp)
        · split at h
          · exact absurd h (by simp)
          · simp only [Except.ok.injEq] at h
            subst h
            exact ⟨_, by assumption, by assumption, by rw [if_neg (by assumption)]⟩

lemma regLookup_erase (reg : Registry) (k : String) :
    regLookup (regErase reg k) k = none := by
  unfold regLookup regErase
  rw [Option.map_eq_none', List.find?_eq_none]
  intro p hp
  have := List.of_mem_filter hp
  simp at this ⊢
  exact this

lemma regInsert_overwrite (reg : Registry) (k : String) (v1 v2 : Nat) :
    regInsert (regInsert reg k v1) k v2 = regInsert reg k v2 := by
  unfold regInsert
  by_cases h : List.any reg (fun p => p.1 = k)
  · have hany : List.any (List.map (fun p => if p.1 = k then (k, v1) else p) reg)
        (fun p => p.1 = k) = true := by
      rw [List.any_map]
      obtain ⟨p, hp, hpk⟩ := List.any_eq_true.mp h
      refine List.any_eq_true.mpr ⟨p, hp, ?_⟩
      simp_all
    simp only [h, hany, if_true, List.map_map]
    apply List.map_congr_left
    intro p hp
    by_cases hpk : p.1 = k <;> simp [hpk]
  · have hany : List.any (List.append reg [(k, v1)]) (fun p => p.1 = k) = true := by
      simp
    have hmap : List.map (fun p => if p.1 = k then (k, v2) else p) reg = reg := by
      have hall : ∀ p ∈ reg, ¬(p.1 = k) := by
        intro p hp hpk
        exact h (List.any_eq_true.mpr ⟨p, hp, by simp [hpk]⟩)
      calc List.map (fun p => if p.1 = k then (k, v2) else p) reg
          = List.map id reg := List.map_congr_left (fun p hp => by simp [hall p hp])
        _ = reg := List.map_id reg
    rw [if_neg h, if_pos hany, if_neg h, List.append_eq, List.map_append, hmap]
    simp

/-- C3: for every multi-select question, answering never raises an
error; every capital letter of the reasoning output that maps to a valid
zero-based option index produces a click on that option (in order of
appearance), and letters without a valid mapping are silently skipped. -/
theorem c3_multiselect_clicks (t : Nat) (q : Question) (ans : String)
    (h : q.qtype = .multiple_answers) :
    answerQuestion t q ans =
      .ok ([.scrollTo q.element, .wait 1000] ++
             (validLetterIndices ans q.options.length).map
               (fun i => PageAction.clickOption (optionToken (q.options.getD i default))),
           { questionId := q.id, question := q.text, answer := ans, timestamp := t }) := by
  unfold answerQuestion validLetterIndices
  rw [h]
  simp only [filterMap_clicks_eq]

/-- Witness for C3 at the spec's example: options [A, B, C, D] and
reasoning output "B, D, Z" click exactly the second and fourth options;
Z is ignored and no error occurs. -/
theorem c3_multiselect_clicks_witness :
    answerQuestion 0 questionSampleMS "B, D, Z"
      = .ok ([.scrollTo "ms1", .wait 1000, .clickOption "optB", .clickOption "optD"],
             { questionId := "ms1", question := "Select all that apply",
               answer := "B, D, Z", timestamp := 0 }) := by
  have h := c3_multiselect_clicks 0 questionSampleMS "B, D, Z" rfl
  rw [h]
  rfl

/-- C1 counterexample: a session whose single extracted question gets a
reasoning reply without a capital letter reaches the failed terminal
state with an empty AnsweredQuestion list, while one question was
extracted — the injection failure is dropped and the list is shorter
than the question list, contradicting the claim. -/
theorem c1_counterexample :
    (runSession envSampleNoLetter cfgSample).result.isOk = false ∧
      (runSession envSampleNoLetter cfgSample).answers.length = 0 ∧
      (extractQuestions [containerSampleMC]).length = 1 :=
  ⟨rfl, rfl, rfl⟩

/-- C1 amended: only a session that reaches the completed terminal state
has exactly one AnsweredQuestion per extracted Question, in extraction
order; a per-question failure instead aborts the session, dropping that
question's entry (and all later ones). -/
theorem c1_amended_counting (env : Env) (cfg : Config)
    (recs : List AnsweredQuestion)
    (h : (runSession env cfg).result = .ok recs) :
    ∃ cs, env.containers = some cs ∧
      recs.map (fun a => a.questionId) = (extractQuestions cs).map Question.id ∧
      recs.length = (extractQuestions cs).length := by
  obtain ⟨cs, hcs, hloop, _⟩ := runSession_ok_inv env cfg recs h
  have hids := answerLoop_none_ids env.ai 0 (extractQuestions cs) recs hloop
  refine ⟨cs, hcs, hids, ?_⟩
  have := congrArg List.length hids
  simpa using this

/-- Witness for C1 amended: a successful one-question session records
exactly one entry, with the question's identifier. -/
theorem c1_amended_counting_witness :
    ∃ cs, envSampleGood.containers = some cs ∧
      ([{ questionId := "mc1", question := "Is the sky blue?", answer := "A",
          timestamp := 0 }] : List AnsweredQuestion).map (fun a => a.questionId)
        = (extractQuestions cs).map Question.id ∧
      ([{ questionId := "mc1", question := "Is the sky blue?", answer := "A",
          timestamp := 0 }] : List AnsweredQuestion).length
        = (extractQuestions cs).length :=
  c1_amended_counting envSampleGood cfgSample
    [{ questionId := "mc1", question := "Is the sky blue?", answer := "A", timestamp := 0 }]
    rfl

/-- C2 counterexample: with two extracted single-choice questions and an
unparseable reply for the first, the session aborts — no failure entry
is recorded for the first question and the second is never answered, so
the per-question error is not local. -/
theorem c2_counterexample :
    (runSession envSampleTwo cfgSample).result.isOk = false ∧
      (runSession envSampleTwo cfgSample).answers = [] ∧
      (extractQuestions [containerSampleMC, containerSampleMC2]).length = 2 :=
  ⟨rfl, rfl, rfl⟩

/-- C2 amended: for a single-choice or boolean question whose reasoning
output has no capital letter, or whose first capital letter maps outside
the option list, `answerQuestion` rethrows the error: the answering loop
stops at that question with no entry recorded for it and none of the
remaining questions processed, and the session fails. -/
theorem c2_amended_abort (ai : Nat → Except String String) (i : Nat)
    (q : Question) (rest : List Question) (ans : String)
    (hty : q.qtype = .multiple_choice ∨ q.qtype = .true_false)
    (hai : ai i = .ok ans)
    (hbad : firstCapital ans = none ∨
      ∃ c, firstCapital ans = some c ∧ q.options.length ≤ c.toNat - 65) :
    ∃ e, answerLoop ai i (q :: rest) = ([], some e) := by
  obtain ⟨e, he⟩ := answerQuestion_err i q ans hty hbad
  refine ⟨e, ?_⟩
  unfold answerLoop
  rw [hai]
  dsimp only []
  rw [he]

/-- Witness for C2 amended: a lowercase-only reply to a single-choice
question aborts the loop before any of the two questions is recorded. -/
theorem c2_amended_abort_witness :
    ∃ e, answerLoop (fun _ => .ok "i am not sure") 0
        [questionSampleMC, questionSampleMC] = ([], some e) :=
  c2_amended_abort (fun _ => .ok "i am not sure") 0 questionSampleMC
    [questionSampleMC] "i am not sure" (Or.inl rfl) rfl (Or.inl (by decide))

/-- C4 counterexample: a request whose delay bounds satisfy delayMin =
10 > 1 = delayMax passes validation and starts a session — no
configuration error rejects it. -/
theorem c4_counterexample :
    (mkConfig bodySample).delayMin = .jnum 10 ∧
      (mkConfig bodySample).delayMax = .jnum 1 ∧
      (startQuiz bodySample 0).isStarted = true :=
  ⟨rfl, rfl, rfl⟩

/-- C4 amended: the delay bounds are never validated nor used — any
request with a truthy reasoning key and target URL starts a session
regardless of the relation between delayMin and delayMax, and every
successful per-question injection is preceded by the scroll and a fixed
1000 ms wait, independent of the configured bounds. -/
theorem c4_amended_fixed_delay (b : StartBody) (now : Nat)
    (h1 : truthy b.groqApiKey = true) (h2 : truthy b.canvasUrl = true) :
    (startQuiz b now).isStarted = true ∧
      ∀ (t : Nat) (q : Question) (ans : String) (acts : List PageAction)
        (e : AnsweredQuestion), answerQuestion t q ans = .ok (acts, e) →
        ∃ rest, acts = [PageAction.scrollTo q.element, PageAction.wait 1000] ++ rest := by
  constructor
  · unfold startQuiz mkConfig
    simp only []
    rw [h1, h2]
    rfl
  · intro t q ans acts e h
    exact (answerQuestion_ok_cases t q ans acts e h).2

/-- Witness for C4 amended: the sample body (delayMin 10 > delayMax 1)
starts, and a concrete single-choice injection's action list begins with
the scroll and the fixed 1000 ms wait. -/
theorem c4_amended_fixed_delay_witness :
    (startQuiz bodySample 0).isStarted = true ∧
      ∃ rest, ([PageAction.scrollTo "mc1", PageAction.wait 1000,
          PageAction.clickOption "a1"] : List PageAction)
        = [PageAction.scrollTo "mc1", PageAction.wait 1000] ++ rest := by
  have h := c4_amended_fixed_delay bodySample 0 (by decide) (by decide)
  exact ⟨h.1, h.2 0 questionSampleMC "A"
    [PageAction.scrollTo "mc1", PageAction.wait 1000, PageAction.clickOption "a1"]
    { questionId := "mc1", question := "Is the sky blue?", answer := "A", timestamp := 0 }
    rfl⟩

/-- C7 counterexample: two distinct sessions (distinct bot references 1
and 2) created at the same millisecond receive the identical session
identifier, and registering both leaves a single registry entry (the
second overwrote the first) — identifiers are not unique per session. -/
theorem c7_counterexample :
    regSize (regInsert (regInsert [] (mkSessionId 1700000000123) 1)
        (mkSessionId 1700000000123) 2) = 1 ∧
      regLookup (regInsert (regInsert [] (mkSessionId 1700000000123) 1)
        (mkSessionId 1700000000123) 2) (mkSessionId 1700000000123) = some 2 :=
  ⟨rfl, rfl⟩

/-- C7 amended: the session identifier is the creation timestamp
rendered in decimal, so sessions created within the same millisecond
share an identifier; registering the second session overwrites the
first's registry entry rather than adding a distinct key. -/
theorem c7_amended_overwrite (reg : Registry) (t : Nat) (v1 v2 : Nat) :
    regInsert (regInsert reg (mkSessionId t) v1) (mkSessionId t) v2
      = regInsert reg (mkSessionId t) v2 :=
  regInsert_overwrite reg (mkSessionId t) v1 v2

/-- C8: for every accepted start request, after the session's background
run reaches either terminal state the registry holds no entry for the
session identifier (both the success and the failure handler delete it),
and whenever a browser was launched the run's teardown closed it. -/
theorem c8_teardown (reg : Registry) (env : Env) (b : StartBody) (now : Nat)
    (h : (startQuiz b now).isStarted = true) :
    regLookup (handleStartQuiz reg env b now).1 (mkSessionId now) = none ∧
      ∃ out, (handleStartQuiz reg env b now).2 = some out ∧
        (env.browserLaunches = true → out.browserClosed = true) := by
  unfold handleStartQuiz
  rcases hs : startQuiz b now with msg | ⟨cfg, sid⟩
  · rw [hs] at h
    exact absurd h (by simp [StartResult.isStarted])
  · have hsid : sid = mkSessionId now := by
      unfold startQuiz at hs
      simp only [] at hs
      split at hs
      · exact absurd hs (by simp)
      · split at hs
        · exact absurd hs (by simp)
        · simp only [StartResult.started.injEq] at hs
          exact hs.2.symm
    subst hsid
    dsimp only []
    exact ⟨regLookup_erase _ _,
      ⟨runSession env cfg, rfl, fun hb => runSession_closed env cfg hb⟩⟩

/-- Witness for C8: a concrete accepted request leaves no registry entry
for its identifier and closes the launched browser. -/
theorem c8_teardown_witness :
    regLookup (handleStartQuiz [] envSampleGood bodySample 42).1 (mkSessionId 42) = none ∧
      ∃ out, (handleStartQuiz [] envSampleGood bodySample 42).2 = some out ∧
        (envSampleGood.browserLaunches = true → out.browserClosed = true) :=
  c8_teardown [] envSampleGood bodySample 42 rfl

/-- C10: the auto-submit flag is true unless the request body carries
the exact boolean false (omitted or any other value yields true), the
headless flag defaults identically, and a session that completes its
answering loop attempts submission exactly when the flag is true. -/
theorem c10_flag_defaults (b : StartBody) (env : Env) :
    ((mkConfig b).autoSubmit = true ↔ b.autoSubmit ≠ JsVal.jbool false) ∧
      ((mkConfig b).headless = true ↔ b.headless ≠ JsVal.jbool false) ∧
      ∀ recs, (runSession env (mkConfig b)).result = .ok recs →
        (runSession env (mkConfig b)).submitAttempted = (mkConfig b).autoSubmit := by
  refine ⟨?_, ?_, ?_⟩
  · simp [mkConfig]
  · simp [mkConfig]
  · intro recs h
    exact (runSession_ok_inv env (mkConfig b) recs h).choose_spec.2.2

/-- Witness for C10: with both flags omitted the config enables
auto-submit and headless mode, and the sample successful session
attempts submission. -/
theorem c10_flag_defaults_witness :
    (mkConfig bodySample).autoSubmit = true ∧
      (mkConfig bodySample).headless = true ∧
      (runSession envSampleGood (mkConfig bodySample)).submitAttempted = true := by
  have h := c10_flag_defaults bodySample envSampleGood
  refine ⟨h.1.mpr (by decide), h.2.1.mpr (by decide), ?_⟩
  have hs := h.2.2
    [{ questionId := "mc1", question := "Is the sky blue?", answer := "A", timestamp := 0 }]
    rfl
  rw [hs]
  decide
